import Mathlib

/-!
Verification development for the collection-cycle orchestrator and payload
model of a host monitoring agent (checks/collector.py).

The embedding is shallow: each Python construct relevant to the claims is
translated into an executable Lean definition.  Dictionaries are modelled as
functions from string keys to optional values, Python lists as Lean lists,
exceptions as Except, and the mutable per-cycle state of Collector.run as
explicit state passing.
-/

namespace Collector

/-- A Python dict with string keys, modelled as a partial map. -/
def Dict (α : Type) : Type := String → Option α

/-- The empty dict. -/
def Dict.empty {α : Type} : Dict α := fun _ => none

/-- dict assignment d[k] = v. -/
def Dict.set {α : Type} (d : Dict α) (k : String) (v : α) : Dict α :=
  fun k' => if k' = k then some v else d k'

/-- dict deletion del d[k]. -/
def Dict.del {α : Type} (d : Dict α) (k : String) : Dict α :=
  fun k' => if k' = k then none else d k'

/-! ## AgentPayload (checks/collector.py lines 45-144)

AgentPayload offers a single payload interface but manages two payloads: a
metadata payload and a data payload.  Key routing is decided by membership in
two frozen key sets. -/

/-- AgentPayload.METADATA_KEYS (line 53). -/
def METADATA_KEYS : List String :=
  ["meta", "tags", "host-tags", "systemStats", "agent_checks", "gohai",
   "external_host_tags"]

/-- AgentPayload.DUPLICATE_KEYS (line 56). -/
def DUPLICATE_KEYS : List String := ["agentKey", "agentVersion"]

/-- AgentPayload.COMMON_ENDPOINT (line 58). -/
def COMMON_ENDPOINT : String := ""

/-- AgentPayload.DATA_ENDPOINT (line 59). -/
def DATA_ENDPOINT : String := "metrics"

/-- AgentPayload.METADATA_ENDPOINT (line 60). -/
def METADATA_ENDPOINT : String := "metadata"

/-- The two backing dicts of an AgentPayload (lines 62-64). -/
structure AgentPayload (α : Type) where
  data_payload : Dict α
  meta_payload : Dict α

/-- AgentPayload.__init__ (lines 62-64): both backing dicts start empty. -/
def AgentPayload.empty {α : Type} : AgentPayload α :=
  { data_payload := Dict.empty, meta_payload := Dict.empty }

/-- AgentPayload.payload (lines 66-74): a copy of the data payload with the
metadata payload overlaid (metadata wins on overlap). -/
def AgentPayload.payload {α : Type} (p : AgentPayload α) : Dict α :=
  fun k =>
    match p.meta_payload k with
    | some v => some v
    | none => p.data_payload k

/-- AgentPayload.__getitem__ (lines 76-80). -/
def AgentPayload.getItem {α : Type} (p : AgentPayload α) (key : String) :
    Option α :=
  if key ∈ METADATA_KEYS then p.meta_payload key else p.data_payload key

/-- AgentPayload.__setitem__ (lines 82-89). -/
def AgentPayload.setItem {α : Type} (p : AgentPayload α) (key : String)
    (value : α) : AgentPayload α :=
  if key ∈ DUPLICATE_KEYS then
    { data_payload := p.data_payload.set key value,
      meta_payload := p.meta_payload.set key value }
  else if key ∈ METADATA_KEYS then
    { p with meta_payload := p.meta_payload.set key value }
  else
    { p with data_payload := p.data_payload.set key value }

/-- AgentPayload.__delitem__ (lines 91-98). -/
def AgentPayload.delItem {α : Type} (p : AgentPayload α) (key : String) :
    AgentPayload α :=
  if key ∈ DUPLICATE_KEYS then
    { data_payload := p.data_payload.del key,
      meta_payload := p.meta_payload.del key }
  else if key ∈ METADATA_KEYS then
    { p with meta_payload := p.meta_payload.del key }
  else
    { p with data_payload := p.data_payload.del key }

/-- One set or delete operation on an AgentPayload. -/
inductive PayloadOp (α : Type) where
  | set (key : String) (value : α)
  | del (key : String)

/-- Apply one operation. -/
def AgentPayload.applyOp {α : Type} (p : AgentPayload α) :
    PayloadOp α → AgentPayload α
  | .set k v => p.setItem k v
  | .del k => p.delItem k

/-- Apply a sequence of set/delete operations in order. -/
def AgentPayload.applyOps {α : Type} (p : AgentPayload α)
    (ops : List (PayloadOp α)) : AgentPayload α :=
  ops.foldl AgentPayload.applyOp p

/-! ## Emission (AgentPayload.emit, lines 109-144)

An emitter is a named callable taking (payload, log, config, endpoint); in the
model its observable behaviour is whether it raises, as a function of the
payload and the endpoint.  The model additionally returns the trace of emitter
invocations (emitter name, endpoint, payload passed) so that claims about
which calls happen can be stated. -/

/-- An emitter: a name plus its behaviour, which given the payload and the
endpoint either succeeds (none) or raises an exception (some message). -/
structure Emitter (α : Type) where
  name : String
  behaviour : Dict α → String → Option String

/-- EmitterStatus (checks/check_status.py): name of the emitter and either
success (error = none) or the exception encountered. -/
structure EmitterStatus where
  name : String
  error : Option String
deriving DecidableEq, Repr

/-- One entry of the invocation trace: which emitter was called, with which
endpoint and which payload. -/
structure EmitCall (α : Type) where
  emitterName : String
  endpoint : String
  payload : Dict α

/-- The inner loop of the local helper _emit_payload (lines 122-136): walk the
emitters, return the statuses collected so far as soon as continue_running is
false, otherwise invoke the emitter, catching an exception into a failed
EmitterStatus, and keep going.  Within one emit call continue_running is a
fixed boolean (it is passed by value at line 530). -/
def emitPayloadLoop {α : Type} (emitters : List (Emitter α))
    (continue_running : Bool) (payload : Dict α) (endpoint : String)
    (statuses : List EmitterStatus) (trace : List (EmitCall α)) :
    List EmitterStatus × List (EmitCall α) :=
  match emitters with
  | [] => (statuses, trace)
  | emitter :: rest =>
    if !continue_running then (statuses, trace)
    else
      let emitter_status : EmitterStatus :=
        match emitter.behaviour payload endpoint with
        | none => { name := emitter.name, error := none }
        | some e => { name := emitter.name, error := some e }
      emitPayloadLoop rest continue_running payload endpoint
        (statuses ++ [emitter_status])
        (trace ++ [{ emitterName := emitter.name, endpoint := endpoint,
                     payload := payload }])

/-- _emit_payload (lines 120-136): starts from an empty status list. -/
def emitPayload {α : Type} (emitters : List (Emitter α))
    (continue_running : Bool) (payload : Dict α) (endpoint : String) :
    List EmitterStatus × List (EmitCall α) :=
  emitPayloadLoop emitters continue_running payload endpoint [] []

/-- AgentPayload.emit (lines 109-144): with merge_payloads, one pass over the
emitters with the merged view and the common endpoint; otherwise one pass with
the data payload and the metrics endpoint followed by one pass with the
metadata payload and the metadata endpoint. -/
def AgentPayload.emit {α : Type} (p : AgentPayload α)
    (emitters : List (Emitter α)) (continue_running : Bool)
    (merge_payloads : Bool) : List EmitterStatus × List (EmitCall α) :=
  if merge_payloads then
    emitPayload emitters continue_running p.payload COMMON_ENDPOINT
  else
    let r1 := emitPayload emitters continue_running p.data_payload
      DATA_ENDPOINT
    let r2 := emitPayload emitters continue_running p.meta_payload
      METADATA_ENDPOINT
    (r1.1 ++ r2.1, r1.2 ++ r2.2)

/-! ## Python exceptions -/

/-- A Python exception, as far as the model distinguishes them. -/
inductive PyExc where
  | osError (errno : Int)
  | exc (msg : String)
  | unboundLocal (var : String)
deriving DecidableEq, Repr

/-! ## Check statuses (checks/check_status.py collaborators)

check_status.py is part of this repository but not under src/; the record
shapes and the derived status are modelled from the spec. -/

/-- The state reported by one instance of a source. -/
inductive IStatus where
  | ok
  | warning
  | error
deriving DecidableEq, Repr

/-- AgentCheck service-check result values (only OK and CRITICAL are used by
the collector, lines 455-457). -/
inductive AgentCheckStatus where
  | ok
  | critical
deriving DecidableEq, Repr

/-- A service-check record. The synthesized agent-health service check
(line 458) carries a check tag; create_service_check for datadog.agent.up
(line 488) carries a hostname. -/
structure ServiceCheck where
  check_name : String
  status : AgentCheckStatus
  tags : List String
  hostname : Option String
deriving DecidableEq, Repr

/-- CheckStatus: one Check Status Record per executed source.  Counts and
instance statuses are absent (none) for sources that failed to initialize
(lines 482-484). -/
structure CheckStatus where
  name : String
  instance_statuses : Option (List IStatus)
  metric_count : Option Nat
  event_count : Option Nat
  service_check_count : Option Nat
  service_metadata : Option (List String)
  source_type_name : Option String
  check_stats : Option String
  init_failed_error : Option String
  init_failed_traceback : Option String
deriving DecidableEq, Repr

/-- Modelled from the spec: the Check Status Tracker (checks/check_status.py,
which is not under src/) derives the record's overall status as ERROR if any
instance reports ERROR, else OK (spec section 4.2); a record for a source that
never initialized carries an initialization error and counts as ERROR. -/
def CheckStatus.isError (cs : CheckStatus) : Bool :=
  match cs.instance_statuses with
  | some l => l.any (fun s => s = IStatus.error)
  | none => true

/-! ## checks.d sources (the loop at lines 406-477)

A checks.d source is consumed through a narrow interface (run, get_metrics,
get_events, get_service_metadata, get_service_checks, service_check); its
observable behaviour during one cycle is captured by the fields below.
service_check appends to the source's pending service-check queue and
get_service_checks drains that queue, so the list returned at line 461
consists of the source's own pending service checks followed by the health
service check synthesized at line 458. -/

/-- The behaviour of one checks.d source during one cycle. -/
structure CheckD where
  name : String
  source_type_name : Option String
  run_raises : Bool
  run_result : List IStatus
  metrics_result : List String
  events_result : List String
  service_metadata_result : List String
  profiling_stats : String
  pending_service_checks : List ServiceCheck

/-- The mutable locals of Collector.run threaded through the checks.d loop.
current_check_metadata models the binding of the Python local of that name:
none means the name is not yet bound in this call of run (it is only assigned
inside the try block, at line 427, never before the loop). -/
structure RunState where
  metrics : List String
  events : Dict (List String)
  service_checks : List ServiceCheck
  check_statuses : List CheckStatus
  current_check_metadata : Option (List String)

/-- The locals of run() as they stand when the checks.d loop is entered:
metrics, events and service_checks hold whatever the earlier phases produced,
and current_check_metadata is unbound. -/
def RunState.initial (metrics0 : List String) (events0 : Dict (List String))
    (service_checks0 : List ServiceCheck) : RunState :=
  { metrics := metrics0, events := events0, service_checks := service_checks0,
    check_statuses := [], current_check_metadata := none }

/-- One iteration of the checks.d loop (lines 409-477), after the
continue_running test.  If check.run() raises, the except clause at line 441
catches and logs it, leaving instance_statuses = [], metric_count = 0,
event_count = 0, check_stats = None; the CheckStatus construction at
line 444 then reads current_check_metadata, which raises UnboundLocalError
when no earlier iteration of the loop bound it. -/
def runOneCheck (check : CheckD) (st : RunState) : Except PyExc RunState :=
  if check.run_raises then
    match st.current_check_metadata with
    | none => .error (.unboundLocal "current_check_metadata")
    | some stale =>
      let check_status : CheckStatus :=
        { name := check.name, instance_statuses := some [],
          metric_count := some 0, event_count := some 0,
          service_check_count := some 0, service_metadata := some stale,
          source_type_name := some (check.source_type_name.getD check.name),
          check_stats := none, init_failed_error := none,
          init_failed_traceback := none }
      let status : AgentCheckStatus :=
        if check_status.isError then .critical else .ok
      let agent_sc : ServiceCheck :=
        { check_name := "datadog.agent.check_status", status := status,
          tags := ["check:" ++ check.name], hostname := none }
      let current_check_service_checks :=
        check.pending_service_checks ++ [agent_sc]
      .ok { st with
            service_checks :=
              if current_check_service_checks ≠ [] then
                st.service_checks ++ current_check_service_checks
              else st.service_checks,
            check_statuses := st.check_statuses ++
              [{ check_status with
                 service_check_count :=
                   some current_check_service_checks.length }] }
  else
    let current_check_metrics := check.metrics_result
    let current_check_events := check.events_result
    let current_check_metadata := check.service_metadata_result
    let metrics' := st.metrics ++ current_check_metrics
    let events' :=
      if current_check_events ≠ [] then
        match st.events check.name with
        | none => st.events.set check.name current_check_events
        | some l => st.events.set check.name (l ++ current_check_events)
      else st.events
    let check_status : CheckStatus :=
      { name := check.name, instance_statuses := some check.run_result,
        metric_count := some current_check_metrics.length,
        event_count := some current_check_events.length,
        service_check_count := some 0,
        service_metadata := some current_check_metadata,
        source_type_name := some (check.source_type_name.getD check.name),
        check_stats := some check.profiling_stats,
        init_failed_error := none, init_failed_traceback := none }
    let status : AgentCheckStatus :=
      if check_status.isError then .critical else .ok
    let agent_sc : ServiceCheck :=
      { check_name := "datadog.agent.check_status", status := status,
        tags := ["check:" ++ check.name], hostname := none }
    let current_check_service_checks :=
      check.pending_service_checks ++ [agent_sc]
    .ok { metrics := metrics', events := events',
          service_checks :=
            if current_check_service_checks ≠ [] then
              st.service_checks ++ current_check_service_checks
            else st.service_checks,
          check_statuses := st.check_statuses ++
            [{ check_status with
               service_check_count :=
                 some current_check_service_checks.length }],
          current_check_metadata := some current_check_metadata }

/-- The checks.d loop (lines 406-477).  self.continue_running is mutated by
another thread via stop(); cr i gives the value read by the i-th test at the
top of a loop iteration.  Returns the outcome (exception, early return with
no payload, or the final state together with the next test index) and the
trace of source names whose iteration was started. -/
def runChecksLoop (cr : Nat → Bool) (checks : List CheckD) (i : Nat)
    (st : RunState) : Except PyExc (Option (RunState × Nat)) × List String :=
  match checks with
  | [] => (.ok (some (st, i)), [])
  | check :: rest =>
    if !cr i then (.ok none, [])
    else
      match runOneCheck check st with
      | .error e => (.error e, [check.name])
      | .ok st' =>
        let r := runChecksLoop cr rest (i + 1) st'
        (r.1, check.name :: r.2)

/-- One entry of self.init_failed_checks_d (a dict check_name -> error and
traceback), given as a list in iteration order. -/
structure InitFailedEntry where
  check_name : String
  error : String
  traceback : String

/-- The initialization-failure loop (lines 479-485): each entry yields a
Check Status Record with no instance statuses and no counts; the loop also
tests continue_running at the top of each iteration and returns early. -/
def runInitFailedLoop (cr : Nat → Bool) (entries : List InitFailedEntry)
    (i : Nat) (check_statuses : List CheckStatus) :
    Option (List CheckStatus × Nat) :=
  match entries with
  | [] => some (check_statuses, i)
  | entry :: rest =>
    if !cr i then none
    else
      runInitFailedLoop cr rest (i + 1) (check_statuses ++
        [{ name := entry.check_name, instance_statuses := none,
           metric_count := none, event_count := none,
           service_check_count := none, service_metadata := none,
           source_type_name := none, check_stats := none,
           init_failed_error := some entry.error,
           init_failed_traceback := some entry.traceback }])

/-- Outcome of the source-running phase of one cycle: a propagated exception,
an early return triggered by the stop signal (run returns None: no payload,
and control never reaches emission at line 530 nor status persistence at
line 536), or normal completion. -/
inductive CycleOutcome where
  | raised (e : PyExc) (checks_started : List String)
  | stopped (checks_started : List String)
  | completed (st : RunState) (checks_started : List String)

/-- Whether control reached the emission step (line 530). -/
def CycleOutcome.reachedEmission : CycleOutcome → Bool
  | .completed _ _ => true
  | _ => false

/-- Whether control reached status persistence (line 536). -/
def CycleOutcome.reachedPersistence : CycleOutcome → Bool
  | .completed _ _ => true
  | _ => false

/-- The payload-bearing result of run: none unless the phase completed. -/
def CycleOutcome.result : CycleOutcome → Option RunState
  | .completed st _ => some st
  | _ => none

/-- The names of the checks actually started. -/
def CycleOutcome.started : CycleOutcome → List String
  | .raised _ tr => tr
  | .stopped tr => tr
  | .completed _ tr => tr

/-- Lines 406-489 of Collector.run: the checks.d loop, the
initialization-failure loop, then the datadog.agent.up service check appended
for the agent itself.  Emission and persistence happen afterwards only on the
completed path. -/
def runChecksPhase (cr : Nat → Bool) (checks : List CheckD)
    (init_failed : List InitFailedEntry) (hostname : String)
    (st0 : RunState) : CycleOutcome :=
  match runChecksLoop cr checks 0 st0 with
  | (.error e, tr) => .raised e tr
  | (.ok none, tr) => .stopped tr
  | (.ok (some (st, i)), tr) =>
    match runInitFailedLoop cr init_failed i st.check_statuses with
    | none => .stopped tr
    | some (check_statuses', _) =>
      .completed
        { st with
          check_statuses := check_statuses',
          service_checks := st.service_checks ++
            [{ check_name := "datadog.agent.up", status := .ok, tags := [],
               hostname := some hostname }] } tr

/-! ## The periodic gate (lines 163-180, 615-616, 790-800)

Timestamps are modelled as integers (the code holds floats from time.time()
and integer intervals; only differences and comparisons matter here). -/

/-- One entry of self.push_times: a start timestamp and an interval. -/
structure TaskGate where
  start : Int
  interval : Int
deriving DecidableEq, Repr

/-- Collector._is_first_run (lines 615-616). -/
def isFirstRun (run_count : Nat) : Bool := run_count ≤ 1

/-- Collector._should_send_additional_data (lines 790-800): returns the
boolean result together with the push_times table after the call. -/
def shouldSendAdditionalData (run_count : Nat)
    (push_times : String → TaskGate) (data_name : String) (now : Int) :
    Bool × (String → TaskGate) :=
  if isFirstRun run_count then (true, push_times)
  else if now - (push_times data_name).start ≥ (push_times data_name).interval
  then
    (true, fun n => if n = data_name then
      { push_times data_name with start := now } else push_times n)
  else (false, push_times)

/-! ## The gohai inventory step (lines 657-676) -/

/-- The outcome of running the gohai subprocess and communicating with it. -/
inductive GohaiOutcome where
  | ok (gohai_metadata : String) (gohai_log : String)
  | osError (errno : Int)
  | exc (msg : String)

/-- The log entries the gohai step can produce. -/
inductive GohaiLogEvent where
  | info_not_found
  | warn_gohai_log (s : String)
  | warn_failed (msg : String)
deriving DecidableEq, Repr

/-- Lines 658-676: on success the payload gains a gohai entry and any stderr
output is logged as a warning; an OSError with errno 2 is logged at info
level and swallowed; an OSError with any other errno is re-raised at line 674
(and a raise inside an except clause is not caught by the following except
Exception clause of the same try statement, so it propagates out of
_populate_payload_metadata and out of run); any other exception is caught and
logged as a warning.  Returns the value stored under the gohai key, if any,
and the log entries. -/
def gohaiStep : GohaiOutcome → Except PyExc (Option String × List GohaiLogEvent)
  | .ok gohai_metadata gohai_log =>
    .ok (some gohai_metadata,
         if gohai_log ≠ "" then [.warn_gohai_log gohai_log] else [])
  | .osError errno =>
    if errno = 2 then .ok (none, [.info_not_found])
    else .error (.osError errno)
  | .exc msg => .ok (none, [.warn_failed msg])

/-! ## The dogstream event merge (lines 359-369) -/

/-- Lines 362-367: when the dogstream source produced events, they are merged
into the events dict under the fixed key dogstream, appended to the existing
list when that key is already present, otherwise stored fresh. -/
def dogstreamEventsMerge (events : Dict (List String))
    (dogstreamEvents : List String) : Dict (List String) :=
  if dogstreamEvents ≠ [] then
    match events "dogstream" with
    | some l => events.set "dogstream" (l ++ dogstreamEvents)
    | none => events.set "dogstream" dogstreamEvents
  else events

/-! ## The resources step (lines 376-396) -/

/-- One resource-snapshot source, as observed this cycle: its resource key,
the snapshots popped, its format version and optional format description. -/
structure ResourcesCheck where
  resource_key : String
  snaps : List String
  format_version : Nat
  format_description : Option String
deriving DecidableEq, Repr

/-- An entry of the payload resources dict: either one producing source's
contribution or the meta entry added at lines 392-396. -/
inductive ResEntry where
  | value (snaps : List String) (format_version : Nat)
      (format_description : Option String)
  | meta (agent_key : String) (host : String)
deriving DecidableEq, Repr

/-- The loop at lines 378-390: each source with a non-empty pop sets
has_resource and stores its contribution under its resource key. -/
def runResourcesLoop (rcs : List ResourcesCheck) (resources : Dict ResEntry)
    (has_resource : Bool) : Dict ResEntry × Bool :=
  match rcs with
  | [] => (resources, has_resource)
  | rc :: rest =>
    if rc.snaps ≠ [] then
      runResourcesLoop rest
        (resources.set rc.resource_key
          (.value rc.snaps rc.format_version rc.format_description)) true
    else runResourcesLoop rest resources has_resource

/-- Lines 376-396: the resources block starts empty (line 632) and gains a
meta entry carrying the agent key and the payload internalHostname only when
at least one source produced snapshots. -/
def resourcesStep (agent_key host : String) (rcs : List ResourcesCheck) :
    Dict ResEntry :=
  let r := runResourcesLoop rcs Dict.empty false
  if r.2 then r.1.set "meta" (.meta agent_key host) else r.1

/-! ## Emission-duration feedback (lines 153, 265, 501-532) -/

/-- The cross-cycle collector state relevant to emission timing:
self.run_count (line 182) and self.emit_duration (line 153). -/
structure EmitTimingState where
  run_count : Nat
  emit_duration : Option Int
deriving DecidableEq, Repr

/-- Collector.__init__ lines 153 and 182: emit_duration starts as None. -/
def collectorInitTiming : EmitTimingState :=
  { run_count := 0, emit_duration := none }

/-- One cycle of run() as seen by the emission-timing state: run_count is
incremented (line 265), the agent-metrics source is fed
emit_time = self.emit_duration (lines 506 and 520) before self.emit_duration
is overwritten with this cycle's measured emission duration (line 532).
Returns the value fed this cycle and the state carried to the next cycle. -/
def runCycleTiming (st : EmitTimingState) (measured_emit_duration : Int) :
    Option Int × EmitTimingState :=
  (st.emit_duration,
   { run_count := st.run_count + 1,
     emit_duration := some measured_emit_duration })

/-- The emit_time values fed to the agent-metrics source over successive
cycles whose measured emission durations are given. -/
def emitTimesFed (st : EmitTimingState) : List Int → List (Option Int)
  | [] => []
  | d :: rest =>
    let r := runCycleTiming st d
    r.1 :: emitTimesFed r.2 rest

/-! ## Helper lemmas -/

lemma meta_not_dup {k : String} (h : k ∈ METADATA_KEYS) :
    k ∉ DUPLICATE_KEYS := by
  fin_cases h <;> decide

lemma dup_not_meta {k : String} (h : k ∈ DUPLICATE_KEYS) :
    k ∉ METADATA_KEYS := by
  fin_cases h <;> decide

/-- Setting or deleting any key preserves agreement of the two backing maps
on every duplicate key. -/
lemma dup_agree_applyOp {α : Type} {p : AgentPayload α}
    (hp : ∀ k ∈ DUPLICATE_KEYS, p.data_payload k = p.meta_payload k)
    (op : PayloadOp α) :
    ∀ k ∈ DUPLICATE_KEYS,
      (p.applyOp op).data_payload k = (p.applyOp op).meta_payload k := by
  intro k hk
  cases op with
  | set key v =>
    simp only [AgentPayload.applyOp, AgentPayload.setItem]
    by_cases h1 : key ∈ DUPLICATE_KEYS
    · simp only [if_pos h1, Dict.set]
      by_cases hkk : k = key <;> simp [hkk, hp k hk]
    · by_cases h2 : key ∈ METADATA_KEYS
      · have hne : k ≠ key := by
          intro e; exact meta_not_dup h2 (e ▸ hk)
        simp [if_neg h1, if_pos h2, Dict.set, hne, hp k hk]
      · have hne : k ≠ key := by
          intro e; exact h1 (e ▸ hk)
        simp [if_neg h1, if_neg h2, Dict.set, hne, hp k hk]
  | del key =>
    simp only [AgentPayload.applyOp, AgentPayload.delItem]
    by_cases h1 : key ∈ DUPLICATE_KEYS
    · simp only [if_pos h1, Dict.del]
      by_cases hkk : k = key <;> simp [hkk, hp k hk]
    · by_cases h2 : key ∈ METADATA_KEYS
      · have hne : k ≠ key := by
          intro e; exact meta_not_dup h2 (e ▸ hk)
        simp [if_neg h1, if_pos h2, Dict.del, hne, hp k hk]
      · have hne : k ≠ key := by
          intro e; exact h1 (e ▸ hk)
        simp [if_neg h1, if_neg h2, Dict.del, hne, hp k hk]

lemma dup_agree_applyOps {α : Type} (ops : List (PayloadOp α)) :
    ∀ k ∈ DUPLICATE_KEYS,
      ((AgentPayload.empty (α := α)).applyOps ops).data_payload k =
      ((AgentPayload.empty (α := α)).applyOps ops).meta_payload k := by
  suffices h : ∀ (p : AgentPayload α),
      (∀ k ∈ DUPLICATE_KEYS, p.data_payload k = p.meta_payload k) →
      ∀ k ∈ DUPLICATE_KEYS,
        (p.applyOps ops).data_payload k = (p.applyOps ops).meta_payload k by
    exact h AgentPayload.empty (fun _ _ => rfl)
  induction ops with
  | nil => intro p hp; exact hp
  | cons op rest ih =>
    intro p hp
    exact ih (p.applyOp op) (dup_agree_applyOp hp op)

/-! ## Claim C3 -/

/-- Claim C3: setting or getting a metadata key touches only the metadata
map; setting a duplicate key (agentKey, agentVersion) writes the same value
into both maps simultaneously, and the two maps hold equal values on every
duplicate key after any sequence of set/delete operations from the empty
payload; setting or getting any other key touches only the data map.  The
routing is decided by membership in the fixed key sets only, for an arbitrary
payload state. -/
theorem C3_payload_key_routing :
    (∀ (α : Type) (p : AgentPayload α) (k : String) (v : α),
      k ∈ METADATA_KEYS →
        (p.setItem k v).meta_payload = p.meta_payload.set k v ∧
        (p.setItem k v).data_payload = p.data_payload ∧
        p.getItem k = p.meta_payload k)
    ∧ (∀ (α : Type) (p : AgentPayload α) (k : String) (v : α),
        k ∈ DUPLICATE_KEYS →
          (p.setItem k v).data_payload = p.data_payload.set k v ∧
          (p.setItem k v).meta_payload = p.meta_payload.set k v)
    ∧ (∀ (α : Type) (ops : List (PayloadOp α)),
        ∀ k ∈ DUPLICATE_KEYS,
          ((AgentPayload.empty (α := α)).applyOps ops).data_payload k =
          ((AgentPayload.empty (α := α)).applyOps ops).meta_payload k)
    ∧ (∀ (α : Type) (p : AgentPayload α) (k : String) (v : α),
        k ∉ METADATA_KEYS → k ∉ DUPLICATE_KEYS →
          (p.setItem k v).data_payload = p.data_payload.set k v ∧
          (p.setItem k v).meta_payload = p.meta_payload)
    ∧ (∀ (α : Type) (p : AgentPayload α) (k : String),
        k ∉ METADATA_KEYS → p.getItem k = p.data_payload k) := by
  refine ⟨?_, ?_, ?_, ?_, ?_⟩
  · intro α p k v hk
    have hnd := meta_not_dup hk
    refine ⟨?_, ?_, ?_⟩ <;>
      simp [AgentPayload.setItem, AgentPayload.getItem, hk, hnd]
  · intro α p k v hk
    constructor <;> simp [AgentPayload.setItem, hk]
  · intro α ops
    exact dup_agree_applyOps ops
  · intro α p k v hk hd
    constructor <;> simp [AgentPayload.setItem, hk, hd]
  · intro α p k hk
    simp [AgentPayload.getItem, hk]

/-- Concrete instantiation of C3_payload_key_routing: setting the metadata
key meta leaves the data map untouched, and after setting the duplicate key
agentKey both backing maps agree on it. -/
theorem C3_payload_key_routing_witness :
    (("meta" : String) ∈ METADATA_KEYS) ∧
    (((AgentPayload.empty (α := Nat)).setItem "meta" 5).data_payload =
      (AgentPayload.empty (α := Nat)).data_payload) ∧
    (("agentKey" : String) ∈ DUPLICATE_KEYS) ∧
    (((AgentPayload.empty (α := Nat)).applyOps
        [PayloadOp.set "agentKey" 7]).data_payload "agentKey" =
     ((AgentPayload.empty (α := Nat)).applyOps
        [PayloadOp.set "agentKey" 7]).meta_payload "agentKey") := by
  refine ⟨by decide, ?_, by decide, ?_⟩
  · exact (C3_payload_key_routing.1 Nat AgentPayload.empty "meta" 5
      (by decide)).2.1
  · exact C3_payload_key_routing.2.2.1 Nat [PayloadOp.set "agentKey" 7]
      "agentKey" (by decide)

/-! ## Emission lemmas -/

/-- Closed form of the _emit_payload loop when continue_running is true:
every emitter is invoked once, in order, each contributing one status and
one trace entry. -/
lemma emitPayloadLoop_true {α : Type} (emitters : List (Emitter α))
    (payload : Dict α) (endpoint : String) (statuses : List EmitterStatus)
    (trace : List (EmitCall α)) :
    emitPayloadLoop emitters true payload endpoint statuses trace =
      (statuses ++ emitters.map
         (fun e => { name := e.name, error := e.behaviour payload endpoint }),
       trace ++ emitters.map
         (fun e => { emitterName := e.name, endpoint := endpoint,
                     payload := payload })) := by
  induction emitters generalizing statuses trace with
  | nil => simp [emitPayloadLoop]
  | cons e rest ih =>
    simp only [emitPayloadLoop, Bool.not_true, Bool.false_eq_true, if_false,
      List.map_cons]
    rw [ih]
    cases hb : e.behaviour payload endpoint <;> simp [hb]

/-- The _emit_payload loop with continue_running false makes no emitter call
and returns the statuses collected so far unchanged. -/
lemma emitPayloadLoop_false {α : Type} (emitters : List (Emitter α))
    (payload : Dict α) (endpoint : String) (statuses : List EmitterStatus)
    (trace : List (EmitCall α)) :
    emitPayloadLoop emitters false payload endpoint statuses trace =
      (statuses, trace) := by
  cases emitters <;> simp [emitPayloadLoop]

/-! ## Claim C4 -/

/-- Claim C4: with merge_payloads true, emit issues exactly one call per
emitter, passing the merged view to the common endpoint; with merge_payloads
false, exactly two calls per emitter, the data payload to the metrics
endpoint first, then the metadata payload to the metadata endpoint; and when
continue_running is false no emitter call is made at all and the status list
collected so far (the empty list) is returned unchanged. -/
theorem C4_emit_call_pattern :
    ∀ (α : Type) (p : AgentPayload α) (emitters : List (Emitter α)),
      ((p.emit emitters true true).2 = emitters.map
         (fun e => { emitterName := e.name, endpoint := COMMON_ENDPOINT,
                     payload := p.payload }) ∧
       (p.emit emitters true true).1 = emitters.map
         (fun e => { name := e.name,
                     error := e.behaviour p.payload COMMON_ENDPOINT }))
      ∧ ((p.emit emitters true false).2 =
           emitters.map
             (fun e => { emitterName := e.name, endpoint := DATA_ENDPOINT,
                         payload := p.data_payload }) ++
           emitters.map
             (fun e => { emitterName := e.name,
                         endpoint := METADATA_ENDPOINT,
                         payload := p.meta_payload }))
      ∧ (∀ merge_payloads : Bool,
           p.emit emitters false merge_payloads = ([], [])) := by
  intro α p emitters
  refine ⟨⟨?_, ?_⟩, ?_, ?_⟩
  · simp [AgentPayload.emit, emitPayload, emitPayloadLoop_true]
  · simp [AgentPayload.emit, emitPayload, emitPayloadLoop_true]
  · simp [AgentPayload.emit, emitPayload, emitPayloadLoop_true]
  · intro merge_payloads
    cases merge_payloads <;>
      simp [AgentPayload.emit, emitPayload, emitPayloadLoop_false]

/-! ## Claim C6 -/

/-- Claim C6: for every list of emitters (with the process running), every
emitter is invoked, in order; an emitter whose call raises contributes a
failed Emitter Status Record (error = some e) while the remaining emitters
are still invoked; the returned list holds exactly one status per emitter
invoked, in invocation order. -/
theorem C6_emitter_isolation :
    ∀ (α : Type) (emitters : List (Emitter α)) (payload : Dict α)
      (endpoint : String),
      (emitPayload emitters true payload endpoint).1 = emitters.map
        (fun e => { name := e.name, error := e.behaviour payload endpoint })
      ∧ (emitPayload emitters true payload endpoint).2 = emitters.map
        (fun e => { emitterName := e.name, endpoint := endpoint,
                    payload := payload }) := by
  intro α emitters payload endpoint
  constructor <;> simp [emitPayload, emitPayloadLoop_true]

/-! ## Claim C2 -/

/-- Counterexample to claim C2 as stated: on the orchestrator's very first
cycle (run_count = 1) the gate returns true through the early first-run
return (line 792) without resetting the task's start: with start 0 and
now 5 the gate fires yet start stays 0, not 5, so it is not the case that
whenever the gate returns true it resets the task's start to now. -/
theorem C2_counterexample :
    (shouldSendAdditionalData 1
       (fun _ => { start := 0, interval := 100 }) "host_metadata" 5).1
      = true
    ∧ ((shouldSendAdditionalData 1
         (fun _ => { start := 0, interval := 100 }) "host_metadata" 5).2
         "host_metadata").start = 0
    ∧ (0 : Int) ≠ 5 := by
  refine ⟨rfl, rfl, by decide⟩

/-- Claim C2 as amended: on the orchestrator's very first cycle the gate
returns true for every task regardless of interval, leaving the whole gate
state unchanged (no reset); on every later cycle it returns true if and only
if now - start >= interval for that task, and then it resets that task's
start to now (leaving every other task unchanged), while returning false
leaves the gate state unchanged. -/
theorem C2_amended_periodic_gate :
    (∀ (push_times : String → TaskGate) (data_name : String) (now : Int)
       (run_count : Nat), run_count ≤ 1 →
         shouldSendAdditionalData run_count push_times data_name now =
           (true, push_times))
    ∧ (∀ (push_times : String → TaskGate) (data_name : String) (now : Int)
        (run_count : Nat), 2 ≤ run_count →
        (((shouldSendAdditionalData run_count push_times data_name now).1 =
            true ↔
          now - (push_times data_name).start ≥
            (push_times data_name).interval)
        ∧ (now - (push_times data_name).start ≥
             (push_times data_name).interval →
            ((shouldSendAdditionalData run_count push_times data_name
                now).2 data_name =
              { push_times data_name with start := now }
            ∧ ∀ n, n ≠ data_name →
                (shouldSendAdditionalData run_count push_times data_name
                  now).2 n = push_times n))
        ∧ (now - (push_times data_name).start <
             (push_times data_name).interval →
            shouldSendAdditionalData run_count push_times data_name now =
              (false, push_times)))) := by
  constructor
  · intro push_times data_name now run_count h
    have hfr : isFirstRun run_count = true := by
      simp [isFirstRun, h]
    simp [shouldSendAdditionalData, hfr]
  · intro push_times data_name now run_count h
    have hfr : isFirstRun run_count = false := by
      simp only [isFirstRun, decide_eq_false_iff_not]
      omega
    refine ⟨?_, ?_, ?_⟩
    · constructor
      · intro h1
        by_contra hge
        simp [shouldSendAdditionalData, hfr, hge] at h1
      · intro hge
        simp [shouldSendAdditionalData, hfr, hge]
    · intro hge
      constructor
      · simp [shouldSendAdditionalData, hfr, hge]
      · intro n hn
        simp [shouldSendAdditionalData, hfr, hge, hn]
    · intro hlt
      have hge : ¬ (now - (push_times data_name).start ≥
          (push_times data_name).interval) := by omega
      simp [shouldSendAdditionalData, hfr, hge]

/-- Concrete instantiation of C2_amended_periodic_gate: on run 1 the gate
fires without touching the state; on run 2 with start 0, interval 100 and
now 200 the gate fires and rearms start to 200. -/
theorem C2_amended_periodic_gate_witness :
    (shouldSendAdditionalData 1
       (fun _ => { start := 0, interval := 100 }) "agent_checks" 5 =
      (true, fun _ => { start := 0, interval := 100 }))
    ∧ ((shouldSendAdditionalData 2
         (fun _ => { start := 0, interval := 100 }) "agent_checks" 200).2
         "agent_checks").start = 200 := by
  constructor
  · exact C2_amended_periodic_gate.1
      (fun _ => { start := 0, interval := 100 }) "agent_checks" 5 1
      (by decide)
  · have h := ((C2_amended_periodic_gate.2
      (fun _ => { start := 0, interval := 100 }) "agent_checks" 200 2
      (by decide)).2.1 (by decide)).1
    rw [h]

/-! ## Claim C5 -/

/-- Counterexample to claim C5 as stated: an OSError with errno 13
(permission denied) raised by the inventory (gohai) subprocess call is
re-raised at line 674; a raise executed inside an except clause is not
caught by the following except Exception clause of the same try statement,
so the exception propagates and the cycle does not continue past the
inventory step. -/
theorem C5_counterexample :
    gohaiStep (GohaiOutcome.osError 13) =
      Except.error (PyExc.osError 13) := by
  rfl

/-- Claim C5 as amended: "command not found" (OSError with errno 2) is
silenced as an expected condition and the cycle continues; any non-OSError
failure arising from running the command is caught and surfaced only as a
logged warning, and the cycle continues; but an OSError with any other errno
is re-raised and propagates out of the metadata-population step, aborting
the cycle. -/
theorem C5_amended_gohai :
    (gohaiStep (GohaiOutcome.osError 2) =
      Except.ok (none, [GohaiLogEvent.info_not_found]))
    ∧ (∀ errno : Int, errno ≠ 2 →
        gohaiStep (GohaiOutcome.osError errno) =
          Except.error (PyExc.osError errno))
    ∧ (∀ msg : String,
        gohaiStep (GohaiOutcome.exc msg) =
          Except.ok (none, [GohaiLogEvent.warn_failed msg]))
    ∧ (∀ gohai_metadata gohai_log : String,
        gohaiStep (GohaiOutcome.ok gohai_metadata gohai_log) =
          Except.ok (some gohai_metadata,
            if gohai_log ≠ "" then [GohaiLogEvent.warn_gohai_log gohai_log]
            else [])) := by
  refine ⟨rfl, ?_, fun _ => rfl, fun _ _ => rfl⟩
  intro errno h
  simp [gohaiStep, h]

/-- Concrete instantiation of C5_amended_gohai: errno 5 is re-raised. -/
theorem C5_amended_gohai_witness :
    gohaiStep (GohaiOutcome.osError 5) =
      Except.error (PyExc.osError 5) :=
  C5_amended_gohai.2.1 5 (by decide)

/-! ## Resources lemmas -/

lemma runResourcesLoop_all_empty {rcs : List ResourcesCheck}
    (h : ∀ rc ∈ rcs, rc.snaps = []) (resources : Dict ResEntry)
    (has_resource : Bool) :
    runResourcesLoop rcs resources has_resource =
      (resources, has_resource) := by
  induction rcs with
  | nil => rfl
  | cons rc rest ih =>
    have h0 : rc.snaps = [] := h rc (by simp)
    simp only [runResourcesLoop, h0]
    exact ih (fun c hc => h c (by simp [hc]))

lemma runResourcesLoop_snd_true (rcs : List ResourcesCheck)
    (resources : Dict ResEntry) :
    (runResourcesLoop rcs resources true).2 = true := by
  induction rcs generalizing resources with
  | nil => rfl
  | cons rc rest ih =>
    simp only [runResourcesLoop]
    by_cases h : rc.snaps = [] <;> simp [h, ih]

lemma runResourcesLoop_snd_of_mem {rcs : List ResourcesCheck}
    {rc : ResourcesCheck} (hmem : rc ∈ rcs) (hne : rc.snaps ≠ [])
    (resources : Dict ResEntry) (has_resource : Bool) :
    (runResourcesLoop rcs resources has_resource).2 = true := by
  induction rcs generalizing resources has_resource with
  | nil => cases hmem
  | cons c rest ih =>
    simp only [runResourcesLoop]
    rcases List.mem_cons.mp hmem with h | h
    · subst h
      simp [hne, runResourcesLoop_snd_true]
    · by_cases hc : c.snaps = [] <;> simp [hc, ih h]

lemma runResourcesLoop_fst_notmem {rcs : List ResourcesCheck} {k : String}
    (hk : k ∉ rcs.map (fun rc => rc.resource_key))
    (resources : Dict ResEntry) (has_resource : Bool) :
    (runResourcesLoop rcs resources has_resource).1 k = resources k := by
  induction rcs generalizing resources has_resource with
  | nil => rfl
  | cons c rest ih =>
    have hk1 : k ≠ c.resource_key := by
      intro e; exact hk (by simp [e])
    have hk2 : k ∉ rest.map (fun rc => rc.resource_key) := by
      intro e; exact hk (by simp [e])
    simp only [runResourcesLoop]
    by_cases hc : c.snaps = []
    · simp [hc, ih hk2]
    · simp [hc, ih hk2, Dict.set, hk1]

lemma runResourcesLoop_fst_mem {rcs : List ResourcesCheck}
    {rc : ResourcesCheck}
    (hnd : (rcs.map (fun c => c.resource_key)).Nodup)
    (hmem : rc ∈ rcs) (hne : rc.snaps ≠ [])
    (resources : Dict ResEntry) (has_resource : Bool) :
    (runResourcesLoop rcs resources has_resource).1 rc.resource_key =
      some (.value rc.snaps rc.format_version rc.format_description) := by
  induction rcs generalizing resources has_resource with
  | nil => cases hmem
  | cons c rest ih =>
    simp only [List.map_cons] at hnd
    rcases List.mem_cons.mp hmem with h | h
    · subst h
      have hnotin : rc.resource_key ∉
          rest.map (fun c => c.resource_key) :=
        (List.nodup_cons.mp hnd).1
      simp only [runResourcesLoop]
      rw [if_pos hne, runResourcesLoop_fst_notmem hnotin]
      simp [Dict.set]
    · have hnd' : (rest.map (fun c => c.resource_key)).Nodup :=
        (List.nodup_cons.mp hnd).2
      simp only [runResourcesLoop]
      by_cases hc : c.snaps = []
      · rw [if_neg (by simp [hc])]
        exact ih hnd' h _ _
      · rw [if_pos hc]
        exact ih hnd' h _ _

/-! ## Claim C7 -/

/-- Claim C7: if no resource-snapshot source popped a pending snapshot this
cycle, the resources block carries no meta entry; if at least one source
produced snapshots (with resource keys distinct and none of them the
reserved key meta), every producing source's contribution sits under its
resource key and the block gains a meta entry carrying the agent key and the
payload's internalHostname. -/
theorem C7_resources_meta_gating :
    (∀ (agent_key host : String) (rcs : List ResourcesCheck),
      (∀ rc ∈ rcs, rc.snaps = []) →
        resourcesStep agent_key host rcs "meta" = none)
    ∧ (∀ (agent_key host : String) (rcs : List ResourcesCheck),
        (rcs.map (fun c => c.resource_key)).Nodup →
        ("meta" : String) ∉ rcs.map (fun c => c.resource_key) →
        (∃ rc ∈ rcs, rc.snaps ≠ []) →
          resourcesStep agent_key host rcs "meta" =
            some (.meta agent_key host)
          ∧ ∀ rc ∈ rcs, rc.snaps ≠ [] →
              resourcesStep agent_key host rcs rc.resource_key =
                some (.value rc.snaps rc.format_version
                  rc.format_description)) := by
  constructor
  · intro agent_key host rcs h
    simp [resourcesStep, runResourcesLoop_all_empty h, Dict.empty]
  · intro agent_key host rcs hnd hmeta hex
    obtain ⟨rc0, hrc0, hne0⟩ := hex
    have hsnd : (runResourcesLoop rcs Dict.empty false).2 = true :=
      runResourcesLoop_snd_of_mem hrc0 hne0 _ _
    constructor
    · simp [resourcesStep, hsnd, Dict.set]
    · intro rc hmem hne
      have hkey : rc.resource_key ≠ "meta" := by
        intro e
        exact hmeta (by simpa [e] using
          List.mem_map_of_mem (fun c => c.resource_key) hmem)
      simp only [resourcesStep, hsnd, if_true, Dict.set, hkey, if_false]
      exact runResourcesLoop_fst_mem hnd hmem hne _ _

/-- Concrete instantiation of C7_resources_meta_gating: with the single
processes resource source popping no snapshot there is no meta entry; when
it pops one snapshot the block holds its contribution and the meta entry. -/
theorem C7_resources_meta_gating_witness :
    (resourcesStep "k" "h"
       [{ resource_key := "processes", snaps := [], format_version := 1,
          format_description := none }] "meta" = none)
    ∧ (resourcesStep "k" "h"
        [{ resource_key := "processes", snaps := ["s1"],
           format_version := 1, format_description := none }] "meta" =
        some (.meta "k" "h"))
    ∧ (resourcesStep "k" "h"
        [{ resource_key := "processes", snaps := ["s1"],
           format_version := 1, format_description := none }] "processes" =
        some (.value ["s1"] 1 none)) := by
  refine ⟨?_, ?_, ?_⟩
  · exact C7_resources_meta_gating.1 "k" "h" _ (by decide)
  · exact (C7_resources_meta_gating.2 "k" "h" _ (by decide) (by decide)
      ⟨{ resource_key := "processes", snaps := ["s1"], format_version := 1,
         format_description := none }, by decide, by decide⟩).1
  · exact (C7_resources_meta_gating.2 "k" "h" _ (by decide) (by decide)
      ⟨{ resource_key := "processes", snaps := ["s1"], format_version := 1,
         format_description := none }, by decide, by decide⟩).2
      { resource_key := "processes", snaps := ["s1"], format_version := 1,
        format_description := none } (by decide) (by decide)

/-! ## Claim C8 -/

/-- Claim C8: events produced by the dogstream source are merged additively
into the events map under the fixed key dogstream, appended to the existing
list when that key already has an entry rather than overwriting it; and a
regular checks.d source's events are likewise appended to any existing list
under the source's name rather than replacing it (and stored fresh when the
name has no entry yet). -/
theorem C8_events_additive_merge :
    (∀ (events : Dict (List String)) (dogstreamEvents l : List String),
      events "dogstream" = some l → dogstreamEvents ≠ [] →
        dogstreamEventsMerge events dogstreamEvents =
          events.set "dogstream" (l ++ dogstreamEvents))
    ∧ (∀ (events : Dict (List String)) (dogstreamEvents : List String),
        events "dogstream" = none → dogstreamEvents ≠ [] →
          dogstreamEventsMerge events dogstreamEvents =
            events.set "dogstream" dogstreamEvents)
    ∧ (∀ (check : CheckD) (st : RunState) (l : List String),
        check.run_raises = false → st.events check.name = some l →
        check.events_result ≠ [] →
          (runOneCheck check st).map (fun s => s.events) =
            .ok (st.events.set check.name (l ++ check.events_result)))
    ∧ (∀ (check : CheckD) (st : RunState),
        check.run_raises = false → st.events check.name = none →
        check.events_result ≠ [] →
          (runOneCheck check st).map (fun s => s.events) =
            .ok (st.events.set check.name check.events_result)) := by
  refine ⟨?_, ?_, ?_, ?_⟩
  · intro events dogstreamEvents l h hne
    simp [dogstreamEventsMerge, h, hne]
  · intro events dogstreamEvents h hne
    simp [dogstreamEventsMerge, h, hne]
  · intro check st l hr h hne
    simp [runOneCheck, hr, h, hne, Except.map]
  · intro check st hr h hne
    simp [runOneCheck, hr, h, hne, Except.map]

/-- Concrete instantiation of C8_events_additive_merge: a second dogstream
event list is appended to the one already present, and a checks.d source
named web appends its events to the list already under web. -/
theorem C8_events_additive_merge_witness :
    (dogstreamEventsMerge (Dict.empty.set "dogstream" ["e0"]) ["e1"] =
      (Dict.empty.set "dogstream" ["e0"]).set "dogstream" (["e0"] ++ ["e1"]))
    ∧ ((runOneCheck
         { name := "web", source_type_name := none, run_raises := false,
           run_result := [], metrics_result := [], events_result := ["w1"],
           service_metadata_result := [], profiling_stats := "",
           pending_service_checks := [] }
         (RunState.initial [] (Dict.empty.set "web" ["w0"]) [])).map
         (fun s => s.events) =
       .ok ((Dict.empty.set "web" ["w0"]).set "web" (["w0"] ++ ["w1"]))) := by
  constructor
  · exact C8_events_additive_merge.1 (Dict.empty.set "dogstream" ["e0"])
      ["e1"] ["e0"] (by simp [Dict.set]) (by decide)
  · exact C8_events_additive_merge.2.2.1
      { name := "web", source_type_name := none, run_raises := false,
        run_result := [], metrics_result := [], events_result := ["w1"],
        service_metadata_result := [], profiling_stats := "",
        pending_service_checks := [] }
      (RunState.initial [] (Dict.empty.set "web" ["w0"]) []) ["w0"]
      rfl (by simp [RunState.initial, Dict.set]) (by decide)

/-! ## Stop-signal lemmas -/

/-- A non-raising check always yields a successor state. -/
lemma runOneCheck_ok {c : CheckD} (h : c.run_raises = false)
    (st : RunState) : ∃ st', runOneCheck c st = .ok st' := by
  simp only [runOneCheck, h]
  exact ⟨_, rfl⟩

/-- If the stop signal is first observed false at the k-th test of the
checks.d loop (and no earlier check raised), the loop returns early having
started exactly the first k checks. -/
lemma runChecksLoop_stopped (cr : Nat → Bool) (checks : List CheckD)
    (i k : Nat) (st : RunState) (hk : k < checks.length)
    (hno : ∀ c ∈ checks.take k, c.run_raises = false)
    (htrue : ∀ j, j < k → cr (i + j) = true) (hfalse : cr (i + k) = false) :
    runChecksLoop cr checks i st =
      (.ok none, (checks.take k).map (fun c => c.name)) := by
  induction checks generalizing i k st with
  | nil => simp at hk
  | cons c rest ih =>
    cases k with
    | zero =>
      have h0 : cr i = false := by simpa using hfalse
      simp [runChecksLoop, h0]
    | succ k' =>
      have h0 : cr i = true := by simpa using htrue 0 (Nat.succ_pos k')
      have hc : c.run_raises = false := hno c (by simp)
      obtain ⟨st', hst'⟩ := runOneCheck_ok hc st
      have ihr := ih (i + 1) k' st'
        (by simpa using hk)
        (by intro c' hc'; exact hno c' (by simp [hc']))
        (by intro j hj
            have := htrue (j + 1) (by omega)
            simpa [Nat.add_assoc, Nat.add_comm 1 j] using this)
        (by have : i + (k' + 1) = i + 1 + k' := by omega
            rw [← this]; exact hfalse)
      simp [runChecksLoop, h0, hst', ihr]

/-- If the stop signal stays true through the whole checks.d loop and no
check raises, the loop completes, having started every check. -/
lemma runChecksLoop_complete (cr : Nat → Bool) (checks : List CheckD)
    (i : Nat) (st : RunState)
    (hno : ∀ c ∈ checks, c.run_raises = false)
    (htrue : ∀ j, j < checks.length → cr (i + j) = true) :
    ∃ st', runChecksLoop cr checks i st =
      (.ok (some (st', i + checks.length)),
       checks.map (fun c => c.name)) := by
  induction checks generalizing i st with
  | nil => exact ⟨st, by simp [runChecksLoop]⟩
  | cons c rest ih =>
    have h0 : cr i = true := by simpa using htrue 0 (by simp)
    have hc : c.run_raises = false := hno c (by simp)
    obtain ⟨st', hst'⟩ := runOneCheck_ok hc st
    obtain ⟨st'', hst''⟩ := ih (i + 1) st'
      (by intro c' hc'; exact hno c' (by simp [hc']))
      (by intro j hj
          have := htrue (j + 1) (by simpa using Nat.succ_lt_succ hj)
          simpa [Nat.add_assoc, Nat.add_comm 1 j] using this)
    refine ⟨st'', ?_⟩
    have harith : i + 1 + rest.length = i + (rest.length + 1) := by omega
    simp [runChecksLoop, h0, hst', hst'', harith]

/-- If the stop signal is first observed false at the m-th test of the
initialization-failure loop, that loop returns early. -/
lemma runInitFailedLoop_stopped (cr : Nat → Bool)
    (entries : List InitFailedEntry) (i m : Nat)
    (statuses : List CheckStatus) (hm : m < entries.length)
    (htrue : ∀ j, j < m → cr (i + j) = true) (hfalse : cr (i + m) = false) :
    runInitFailedLoop cr entries i statuses = none := by
  induction entries generalizing i m statuses with
  | nil => simp at hm
  | cons e rest ih =>
    cases m with
    | zero =>
      have h0 : cr i = false := by simpa using hfalse
      simp [runInitFailedLoop, h0]
    | succ m' =>
      have h0 : cr i = true := by simpa using htrue 0 (Nat.succ_pos m')
      simp only [runInitFailedLoop, h0, Bool.not_true, Bool.false_eq_true,
        if_false]
      exact ih (i + 1) m' _
        (by simpa using hm)
        (by intro j hj
            have := htrue (j + 1) (by omega)
            simpa [Nat.add_assoc, Nat.add_comm 1 j] using this)
        (by have : i + (m' + 1) = i + 1 + m' := by omega
            rw [← this]; exact hfalse)

/-! ## Claim C9 -/

/-- Claim C9: once the stop signal is observed false at the top of the
regular checks.d loop (the k-th test) or of the initialization-failure loop,
no further source is started and the cycle call returns immediately with no
payload, reaching neither the emission step nor status persistence. -/
theorem C9_stop_signal_aborts_cycle :
    (∀ (cr : Nat → Bool) (checks : List CheckD)
       (init_failed : List InitFailedEntry) (hostname : String)
       (st0 : RunState) (k : Nat),
      k < checks.length →
      (∀ c ∈ checks.take k, c.run_raises = false) →
      (∀ j, j < k → cr j = true) → cr k = false →
        runChecksPhase cr checks init_failed hostname st0 =
          .stopped ((checks.take k).map (fun c => c.name))
        ∧ (runChecksPhase cr checks init_failed hostname st0).result = none
        ∧ (runChecksPhase cr checks init_failed hostname
            st0).reachedEmission = false
        ∧ (runChecksPhase cr checks init_failed hostname
            st0).reachedPersistence = false)
    ∧ (∀ (cr : Nat → Bool) (checks : List CheckD)
        (init_failed : List InitFailedEntry) (hostname : String)
        (st0 : RunState) (m : Nat),
        m < init_failed.length →
        (∀ c ∈ checks, c.run_raises = false) →
        (∀ j, j < checks.length + m → cr j = true) →
        cr (checks.length + m) = false →
          runChecksPhase cr checks init_failed hostname st0 =
            .stopped (checks.map (fun c => c.name))
          ∧ (runChecksPhase cr checks init_failed hostname st0).result =
              none
          ∧ (runChecksPhase cr checks init_failed hostname
              st0).reachedEmission = false
          ∧ (runChecksPhase cr checks init_failed hostname
              st0).reachedPersistence = false) := by
  constructor
  · intro cr checks init_failed hostname st0 k hk hno htrue hfalse
    have hloop := runChecksLoop_stopped cr checks 0 k st0 hk hno
      (by intro j hj; simpa using htrue j hj) (by simpa using hfalse)
    have heq : runChecksPhase cr checks init_failed hostname st0 =
        .stopped ((checks.take k).map (fun c => c.name)) := by
      simp [runChecksPhase, hloop]
    exact ⟨heq, by rw [heq]; rfl, by rw [heq]; rfl, by rw [heq]; rfl⟩
  · intro cr checks init_failed hostname st0 m hm hno htrue hfalse
    obtain ⟨st', hst'⟩ := runChecksLoop_complete cr checks 0 st0 hno
      (by intro j hj; simpa using htrue j (by omega))
    have hinit := runInitFailedLoop_stopped cr init_failed
      checks.length m st'.check_statuses hm
      (by intro j hj; exact htrue (checks.length + j) (by omega))
      hfalse
    have heq : runChecksPhase cr checks init_failed hostname st0 =
        .stopped (checks.map (fun c => c.name)) := by
      simp [runChecksPhase, hst', hinit]
    exact ⟨heq, by rw [heq]; rfl, by rw [heq]; rfl, by rw [heq]; rfl⟩

/-- A benign checks.d source used to instantiate stop-signal statements. -/
def okCheck (name : String) : CheckD :=
  { name := name, source_type_name := none, run_raises := false,
    run_result := [], metrics_result := [], events_result := [],
    service_metadata_result := [], profiling_stats := "",
    pending_service_checks := [] }

/-- Concrete instantiation of C9_stop_signal_aborts_cycle: with two benign
sources and a stop signal observed false at the second test, only the first
source runs and the cycle returns with no payload, no emission and no
persistence. -/
theorem C9_stop_signal_aborts_cycle_witness :
    runChecksPhase (fun n => n == 0) [okCheck "c1", okCheck "c2"] []
      "myhost" (RunState.initial [] Dict.empty []) = .stopped ["c1"]
    ∧ (runChecksPhase (fun n => n == 0) [okCheck "c1", okCheck "c2"] []
        "myhost" (RunState.initial [] Dict.empty [])).reachedEmission =
        false := by
  have h := C9_stop_signal_aborts_cycle.1 (fun n => n == 0)
    [okCheck "c1", okCheck "c2"] [] "myhost"
    (RunState.initial [] Dict.empty []) 1
    (by decide) (by decide)
    (by intro j hj
        have : j = 0 := by omega
        rw [this]; rfl)
    (by rfl)
  exact ⟨h.1, h.2.2.1⟩

/-! ## Claim C1 -/

/-- Claim C1 failing input, evaluated on the code: when the very first
checks.d source's collection call raises, the except clause at line 441 does
catch and log the source's own exception, but the CheckStatus construction
at line 444 then reads the local current_check_metadata, which is assigned
only inside the try block (line 427) and so is still unbound:
an UnboundLocalError is raised outside any handler and propagates out of the
cycle call.  No Check Status Record is produced, emission and persistence
are never reached, and the cycle does not complete, contradicting the claim
that a misbehaving source never aborts the cycle. -/
theorem C1_first_failing_check_aborts_cycle :
    runChecksPhase (fun _ => true)
      [{ name := "failing", source_type_name := none, run_raises := true,
         run_result := [], metrics_result := [], events_result := [],
         service_metadata_result := [], profiling_stats := "",
         pending_service_checks := [] }] [] "myhost"
      (RunState.initial [] Dict.empty []) =
      .raised (.unboundLocal "current_check_metadata") ["failing"]
    ∧ (runChecksPhase (fun _ => true)
        [{ name := "failing", source_type_name := none, run_raises := true,
           run_result := [], metrics_result := [], events_result := [],
           service_metadata_result := [], profiling_stats := "",
           pending_service_checks := [] }] [] "myhost"
        (RunState.initial [] Dict.empty [])).reachedEmission = false := by
  exact ⟨rfl, rfl⟩

/-! ## Claim C10 -/

/-- Closed form of the emit_time values fed to the agent-metrics source:
None first, then each earlier cycle's measured emission duration, shifted by
one cycle. -/
lemma emitTimesFed_eq (st : EmitTimingState) (ds : List Int) :
    emitTimesFed st ds =
      (st.emit_duration :: ds.map some).take ds.length := by
  induction ds generalizing st with
  | nil => rfl
  | cons d rest ih =>
    simp only [emitTimesFed, runCycleTiming, List.map_cons, List.length_cons,
      List.take_succ_cons, List.cons.injEq, true_and]
    exact ih _

/-- Claim C10: over any run of cycles whose measured emission durations are
ds, the emit_time fed to the self-health source is None on the very first
cycle, and on every later cycle n it is the duration recorded at the end of
cycle n - 1, one cycle stale. -/
theorem C10_emit_time_one_cycle_stale :
    ∀ ds : List Int,
      (emitTimesFed collectorInitTiming ds).length = ds.length
      ∧ (0 < ds.length →
          (emitTimesFed collectorInitTiming ds)[0]? = some none)
      ∧ (∀ n, n + 1 < ds.length →
          (emitTimesFed collectorInitTiming ds)[n + 1]? =
            (ds[n]?).map Option.some) := by
  intro ds
  rw [emitTimesFed_eq]
  refine ⟨?_, ?_, ?_⟩
  · simp
  · intro h
    rw [List.getElem?_take, if_pos h]
    simp [collectorInitTiming]
  · intro n h
    rw [List.getElem?_take, if_pos h]
    simp only [List.getElem?_cons_succ, List.getElem?_map]

/-- Concrete instantiation of C10_emit_time_one_cycle_stale: with measured
emission durations 10, 20, 30, the fed values are None, 10, 20. -/
theorem C10_emit_time_one_cycle_stale_witness :
    (emitTimesFed collectorInitTiming [10, 20, 30])[0]? = some none
    ∧ (emitTimesFed collectorInitTiming [10, 20, 30])[1]? =
        some (some 10)
    ∧ (emitTimesFed collectorInitTiming [10, 20, 30])[2]? =
        some (some 20) := by
  have h := C10_emit_time_one_cycle_stale [10, 20, 30]
  refine ⟨h.2.1 (by decide), ?_, ?_⟩
  · have := h.2.2 0 (by decide)
    simpa using this
  · have := h.2.2 1 (by decide)
    simpa using this

end Collector
